import Mathlib

/-!
Shallow embedding of the broadcast delivery pipeline of the dvorik2
repository, together with theorems settling the claims about it.

Conventions of the embedding:
* timestamps are natural numbers (the code stores naive UTC datetimes and
  only compares them);
* the SQLAlchemy session is replaced by an explicit `DB` value holding the
  user and segment tables, and queries become list filters;
* a JSON filter dictionary becomes the record `SegmentDef`: one optional
  field per key the code inspects, plus the list of keys the code never
  inspects (`unknown_keys`), mirroring that a Python dict can carry keys
  `evaluate_segment` ignores;
* raising an exception becomes returning `Option.none` from the function
  that the exception escapes.
-/

namespace Dvorik

/-- `BroadcastStatus` enum from models/broadcast.py. -/
inductive BroadcastStatus where
  | draft
  | scheduled
  | sending
  | sent
  | error
deriving DecidableEq, Repr

/-- `BroadcastMediaType` enum from models/broadcast.py. -/
inductive BroadcastMediaType where
  | none
  | photo
  | video
  | document
deriving DecidableEq, Repr

/-- The `.value` of a `BroadcastMediaType` member: it is a `str` enum, so
comparing a member with a string literal compares this value. -/
def BroadcastMediaType.value : BroadcastMediaType → String
  | .none => "none"
  | .photo => "photo"
  | .video => "video"
  | .document => "document"

/-- `UserStatus` enum from models/user.py. -/
inductive UserStatus where
  | active
  | blocked
deriving DecidableEq, Repr

/-- `UserGender` enum from models/user.py. -/
inductive UserGender where
  | male
  | female
  | unknown
deriving DecidableEq, Repr

/-- Projection of the `User` ORM model (models/user.py): the columns the
broadcast pipeline reads.  `birthday` is kept as the extracted month,
the only component the code observes (`extract('month', User.birthday)`);
`none` stands for a NULL birthday. -/
structure User where
  id : Nat
  telegram_id : Nat
  status : UserStatus
  is_subscribed : Bool
  tags : List String
  source : Option String
  source_normalized : Option String
  gender : UserGender
  birthday_month : Option Nat
  created_at : Nat
  is_test : Bool
deriving DecidableEq, Repr

/-- A JSON segment/filter definition as `evaluate_segment` reads it: one
optional entry per key the function tests with `'key' in definition`,
plus the keys it never looks at. -/
structure SegmentDef where
  status : Option UserStatus := Option.none
  is_subscribed : Option Bool := Option.none
  tags : Option (List String) := Option.none
  source : Option String := Option.none
  source_normalized : Option String := Option.none
  gender : Option UserGender := Option.none
  birthday_month : Option Nat := Option.none
  created_after : Option Nat := Option.none
  created_before : Option Nat := Option.none
  unknown_keys : List String := []
deriving DecidableEq, Repr

/-- Projection of the `Segment` ORM model (models/segment.py). -/
structure Segment where
  id : Nat
  name : String
  definition : SegmentDef
  is_active : Bool
  is_test : Bool
deriving DecidableEq, Repr

/-- Projection of the `Broadcast` ORM model (legacy/models/broadcast.py). -/
structure Broadcast where
  id : Nat
  title : String
  content : String
  media_type : BroadcastMediaType
  media_file_id : Option String
  buttons : Option (List (String × String))
  filters : Option SegmentDef
  segment_id : Option Nat
  status : BroadcastStatus
  send_at : Option Nat
  sent_at : Option Nat
  recipient_count : Nat
  success_count : Nat
  error_count : Nat
  created_by_admin_id : Nat
  is_test : Bool
deriving DecidableEq, Repr

/-- `Broadcast.can_transition_to` (legacy/models/broadcast.py): the
`allowed_transitions` dictionary looked up at the current status. -/
def can_transition_to (current new : BroadcastStatus) : Bool :=
  let allowed : List BroadcastStatus :=
    match current with
    | .draft => [.scheduled]
    | .scheduled => [.sending]
    | .sending => [.sent, .error]
    | .sent => [.scheduled]
    | .error => [.scheduled]
  allowed.contains new

/-- `Broadcast.transition_to` (legacy/models/broadcast.py): mutate the
status when the FSM allows it, stamping `sent_at` on entry to `sent`;
return whether the transition happened together with the record. -/
def transition_to (b : Broadcast) (new : BroadcastStatus) (now : Nat) :
    Bool × Broadcast :=
  if can_transition_to b.status new then
    (true,
      { b with
        status := new
        sent_at := if new = BroadcastStatus.sent then some now else b.sent_at })
  else
    (false, b)

/-- The six transitions of the legal-transition table in the spec. -/
def specTransitionTable (current new : BroadcastStatus) : Prop :=
  (current = .draft ∧ new = .scheduled) ∨
  (current = .scheduled ∧ new = .sending) ∨
  (current = .sending ∧ new = .sent) ∨
  (current = .sending ∧ new = .error) ∨
  (current = .sent ∧ new = .scheduled) ∨
  (current = .error ∧ new = .scheduled)

instance (current new : BroadcastStatus) :
    Decidable (specTransitionTable current new) := by
  unfold specTransitionTable
  infer_instance

/-- `CHUNK_SIZE` constant from legacy/tasks/broadcast_tasks.py. -/
def CHUNK_SIZE : Nat := 1000

/-- `RATE_LIMIT_PER_MINUTE` constant from legacy/tasks/broadcast_tasks.py. -/
def RATE_LIMIT_PER_MINUTE : Nat := 25

/-- The chunking list comprehension of `process_broadcast`
(legacy/tasks/broadcast_tasks.py):
`[ids[i:i+CHUNK_SIZE] for i in range(0, len(ids), CHUNK_SIZE)]`.
`List.range' 0 k c` is Python's `range(0, n, c)`, whose length is
`ceil(n / c) = (n + c - 1) / c`, and `ids[i:i+c]` is `(l.drop i).take c`. -/
def chunksOf (c : Nat) (l : List Nat) : List (List Nat) :=
  (List.range' 0 ((l.length + c - 1) / c) c).map (fun i => (l.drop i).take c)

/-- Python truthiness of an optional integer column, as in
`if broadcast.segment_id:` — `None` and `0` are falsy. -/
def optTruthy : Option Nat → Bool
  | Option.none => false
  | some n => n != 0

/-- Python truthiness of a filter dictionary, as in
`elif broadcast.filters:` — `None` and the empty dict are falsy. -/
def SegmentDef.isTruthy (d : SegmentDef) : Bool :=
  d.status.isSome || d.is_subscribed.isSome || d.tags.isSome ||
  d.source.isSome || d.source_normalized.isSome || d.gender.isSome ||
  d.birthday_month.isSome || d.created_after.isSome ||
  d.created_before.isSome || !d.unknown_keys.isEmpty

/-- `evaluate_segment` (legacy/services/segment_service.py): apply the
definition's filters to a query, here a list of users.  Each key the code
tests with `'key' in definition` adds a WHERE clause; `tags` is OR
semantics over the listed tags and is skipped for an empty list
(`if 'tags' in definition and definition['tags']:`); a NULL `birthday`
fails the month comparison as in SQL.  Keys the function never inspects
(`unknown_keys` here) contribute nothing — there is no else branch and no
raise in the source. -/
def evaluate_segment (users : List User) (definition : SegmentDef) : List User :=
  let q := users
  let q := match definition.status with
    | some s => q.filter (fun u => u.status == s)
    | Option.none => q
  let q := match definition.is_subscribed with
    | some b => q.filter (fun u => u.is_subscribed == b)
    | Option.none => q
  let q := match definition.tags with
    | some ts =>
        if ts.isEmpty then q
        else q.filter (fun u => ts.any (fun t => u.tags.contains t))
    | Option.none => q
  let q := match definition.source with
    | some s => q.filter (fun u => u.source == some s)
    | Option.none => q
  let q := match definition.source_normalized with
    | some s => q.filter (fun u => u.source_normalized == some s)
    | Option.none => q
  let q := match definition.gender with
    | some g => q.filter (fun u => u.gender == g)
    | Option.none => q
  let q := match definition.birthday_month with
    | some m => q.filter (fun u => u.birthday_month == some m)
    | Option.none => q
  let q := match definition.created_after with
    | some t => q.filter (fun u => decide (t ≤ u.created_at))
    | Option.none => q
  let q := match definition.created_before with
    | some t => q.filter (fun u => decide (u.created_at ≤ t))
    | Option.none => q
  q

/-- The persistent state the pipeline reads: the `users` and `segments`
tables.  Stands in for the SQLAlchemy session. -/
structure DB where
  users : List User
  segments : List Segment
deriving Repr

/-- `get_recipients` (services/broadcast_service.py): base query of active
users with matching test flag; a truthy `segment_id` is looked up and, when
found, its definition filters the query — when the lookup misses (dangling
reference) the base query runs unfiltered; otherwise truthy inline
`filters` are applied. -/
def get_recipients (db : DB) (broadcast : Broadcast) (is_test : Bool) :
    List User :=
  let query := db.users.filter
    (fun u => u.status == UserStatus.active && u.is_test == is_test)
  if optTruthy broadcast.segment_id then
    match db.segments.find? (fun s => s.id == broadcast.segment_id.getD 0) with
    | some segment => evaluate_segment query segment.definition
    | Option.none => query
  else
    match broadcast.filters with
    | some f => if f.isTruthy then evaluate_segment query f else query
    | Option.none => query

/-- `count_recipients` (services/broadcast_service.py): counts the base
query of active users with matching test flag.  The `segment_id` and
`filters` branches of the source contain only `pass` placeholders, so no
filter is ever applied to the count. -/
def count_recipients (db : DB) (filters : Option SegmentDef)
    (segment_id : Option Nat) (is_test : Bool) : Nat :=
  (db.users.filter
    (fun u => u.status == UserStatus.active && u.is_test == is_test)).length

/-- `BroadcastCreate` Pydantic schema (schemas/broadcast.py). -/
structure BroadcastCreate where
  title : String
  content : String
  media_type : BroadcastMediaType := BroadcastMediaType.none
  media_file_id : Option String := Option.none
  buttons : Option (List (String × String)) := Option.none
  filters : Option SegmentDef := Option.none
  segment_id : Option Nat := Option.none
  created_by_admin_id : Nat
deriving DecidableEq, Repr

/-- The field validation Pydantic performs for `BroadcastCreate`: length
bounds on `title`, `content` and `media_file_id`, positivity of
`segment_id` and `created_by_admin_id`.  The `filters` and `buttons`
dictionaries are unconstrained (`Optional[dict] = None`). -/
def broadcastCreateValid (data : BroadcastCreate) : Bool :=
  decide (1 ≤ data.title.length) && decide (data.title.length ≤ 255) &&
  decide (1 ≤ data.content.length) &&
  (match data.media_file_id with
    | some s => decide (s.length ≤ 255)
    | Option.none => true) &&
  (match data.segment_id with
    | some n => decide (0 < n)
    | Option.none => true) &&
  decide (0 < data.created_by_admin_id)

/-- `create_broadcast` (services/broadcast_service.py): build a row from
the schema data with `status=DRAFT` and column defaults; no validation of
the filter contents happens here or anywhere on this path. -/
def create_broadcast (data : BroadcastCreate) (new_id : Nat)
    (admin_id : Nat) (is_test : Bool) : Broadcast :=
  { id := new_id
    title := data.title
    content := data.content
    media_type := data.media_type
    media_file_id := data.media_file_id
    buttons := data.buttons
    filters := data.filters
    segment_id := data.segment_id
    status := BroadcastStatus.draft
    send_at := Option.none
    sent_at := Option.none
    recipient_count := 0
    success_count := 0
    error_count := 0
    created_by_admin_id := admin_id
    is_test := is_test }

/-- `create_broadcast_endpoint` (legacy/routers/broadcasts.py): count the
recipients, create the broadcast, store the count on it. -/
def create_broadcast_endpoint (db : DB) (data : BroadcastCreate)
    (new_id : Nat) (admin_id : Nat) : Broadcast :=
  let recipient_count := count_recipients db data.filters data.segment_id false
  let broadcast := create_broadcast data new_id admin_id false
  { broadcast with recipient_count := recipient_count }

/-- `update_broadcast_stats` (services/broadcast_service.py): add the two
deltas onto the counters (each guarded by `> 0`). -/
def update_broadcast_stats (broadcast : Broadcast)
    (success_increment error_increment : Nat) : Broadcast :=
  let b1 :=
    if 0 < success_increment then
      { broadcast with success_count := broadcast.success_count + success_increment }
    else broadcast
  if 0 < error_increment then
    { b1 with error_count := b1.error_count + error_increment }
  else b1

/-- The bot-client send operations the chunk loop can invoke. -/
inductive SendOp where
  | sendMessage
  | sendPhoto
  | sendVideo
deriving DecidableEq, Repr

/-- The send-method selection of `send_broadcast_chunk`
(legacy/tasks/broadcast_tasks.py): the if/elif chain compares the str-enum
`media_type` with the strings "text", "photo" and "video"; there is no
else branch, and no "document" branch, so for the enum values "none" and
"document" (and for "text", which is not an enum value at all) no send
operation is selected. -/
def selectSendOps (media_type : BroadcastMediaType) : List SendOp :=
  if media_type.value == "text" then [SendOp.sendMessage]
  else if media_type.value == "photo" then [SendOp.sendPhoto]
  else if media_type.value == "video" then [SendOp.sendVideo]
  else []

/-- Whether `pat` is an initial segment of `s` (character lists). -/
def charsStartWith : List Char → List Char → Bool
  | [], _ => true
  | _ :: _, [] => false
  | p :: ps, c :: cs => p == c && charsStartWith ps cs

/-- Whether `pat` occurs contiguously somewhere in `s` (character
lists). -/
def charsContain (pat : List Char) : List Char → Bool
  | [] => pat.isEmpty
  | c :: cs => charsStartWith pat (c :: cs) || charsContain pat cs

/-- Python's substring test `pat in s`. -/
def strIn (pat s : String) : Bool := charsContain pat.data s.data

/-- Python's `str.lower()` for the ASCII texts involved here:
character-wise lowercasing. -/
def strLower (s : String) : String := String.mk (s.data.map Char.toLower)

/-- The text of the exception every selected send branch raises: building
the keyword arguments of the call evaluates `broadcast.message`, but the
`Broadcast` model defines `content` (and `buttons`, not
`inline_keyboard`), so Python raises this AttributeError before the
provider client is ever invoked. -/
def missingMessageAttrText : String :=
  "'Broadcast' object has no attribute 'message'"

/-- The exception (if any) that escapes the try block of one loop
iteration of `send_broadcast_chunk`, as the source determines it: every
selected branch (text, photo, video) evaluates `broadcast.message` while
building the arguments of its send call and raises the AttributeError
above; with no branch selected nothing in the block can raise. -/
def tryBlockException (media_type : BroadcastMediaType) : Option String :=
  if (selectSendOps media_type).isEmpty then Option.none
  else some missingMessageAttrText

/-- The per-user loop of `send_broadcast_chunk`
(legacy/tasks/broadcast_tasks.py).  Each iteration runs the try block;
when it completes, `success_count` is incremented.  When an exception
escapes, its text is classified by the except handler: "403" in it or
"blocked" in its lowercase form counts a per-recipient error and
continues; "429" in it re-raises, aborting the run before any stats are
written (`Option.none`); anything else counts a per-recipient error and
continues.  The escaping exception itself is the deterministic one of
`tryBlockException`. -/
def runChunkLoop (media_type : BroadcastMediaType) :
    List User → Nat → Nat → Option (Nat × Nat)
  | [], success_count, error_count => some (success_count, error_count)
  | _user :: rest, success_count, error_count =>
    match tryBlockException media_type with
    | Option.none =>
        runChunkLoop media_type rest (success_count + 1) error_count
    | some error_str =>
      if strIn "403" error_str || strIn "blocked" (strLower error_str) then
        runChunkLoop media_type rest success_count (error_count + 1)
      else if strIn "429" error_str then
        Option.none
      else
        runChunkLoop media_type rest success_count (error_count + 1)

/-- One execution of the `send_broadcast_chunk` task body: load the users
of the chunk, run the loop, and on completion write the accumulated deltas
onto the broadcast.  `Option.none` means the run re-raised, so nothing
was committed. -/
def send_broadcast_chunk_once (db : DB) (broadcast : Broadcast)
    (user_ids : List Nat) : Option Broadcast :=
  let users := db.users.filter (fun u => user_ids.contains u.id)
  match runChunkLoop broadcast.media_type users 0 0 with
  | some (s, e) => some (update_broadcast_stats broadcast s e)
  | Option.none => Option.none

/-- `BroadcastTask.max_retries` (legacy/tasks/broadcast_tasks.py). -/
def max_retries : Nat := 3

/-- `BroadcastTask.retry_backoff` (legacy/tasks/broadcast_tasks.py):
exponential backoff is enabled for the automatic retries. -/
def retry_backoff : Bool := true

/-- `BroadcastTask.retry_backoff_max` (legacy/tasks/broadcast_tasks.py):
backoff is capped at 600 seconds. -/
def retry_backoff_max : Nat := 600

/-- Celery's automatic-retry wrapper around the chunk task
(`autoretry_for=(Exception,)` on `BroadcastTask`): execute the task body;
when an execution raises, retry the same full argument list, up to
`max_retries` retries after the first attempt.  When every execution
raises, `on_failure` only logs, so the broadcast is returned with its
counters untouched. -/
def retryLoop (db : DB) (broadcast : Broadcast) (user_ids : List Nat) :
    Nat → Broadcast
  | 0 => broadcast
  | fuel + 1 =>
    match send_broadcast_chunk_once db broadcast user_ids with
    | some updated => updated
    | Option.none => retryLoop db broadcast user_ids fuel

/-- The chunk task as the queue sees it: at most `1 + max_retries`
executions of `send_broadcast_chunk_once`. -/
def send_broadcast_chunk_task (db : DB) (broadcast : Broadcast)
    (user_ids : List Nat) : Broadcast :=
  retryLoop db broadcast user_ids (max_retries + 1)

/-- `process_broadcast` (legacy/tasks/broadcast_tasks.py): bail out unless
the broadcast is `sending`; resolve the recipients; with none, transition
straight to `sent` and enqueue nothing; otherwise split the id list into
`CHUNK_SIZE` chunks, enqueue one task per chunk (the returned list), and
transition to `sent` at enqueue time. -/
def process_broadcast (db : DB) (broadcast : Broadcast) (now : Nat) :
    Broadcast × List (List Nat) :=
  if broadcast.status ≠ BroadcastStatus.sending then (broadcast, [])
  else
    let recipients := get_recipients db broadcast broadcast.is_test
    if recipients.isEmpty then
      ((transition_to broadcast BroadcastStatus.sent now).2, [])
    else
      let recipient_ids := recipients.map (fun u => u.id)
      ((transition_to broadcast BroadcastStatus.sent now).2,
        chunksOf CHUNK_SIZE recipient_ids)

/-- SQL semantics of `Broadcast.send_at <= now`: a NULL `send_at` never
satisfies the comparison. -/
def optLE (send_at : Option Nat) (now : Nat) : Bool :=
  match send_at with
  | some t => decide (t ≤ now)
  | Option.none => false

/-- The SELECT of `check_scheduled_broadcasts`
(tasks/scheduled_broadcast_tasks.py): status `scheduled` and due
`send_at`. -/
def dueBroadcasts (broadcasts : List Broadcast) (now : Nat) :
    List Broadcast :=
  broadcasts.filter
    (fun b => b.status == BroadcastStatus.scheduled && optLE b.send_at now)

/-- The loop body of `check_scheduled_broadcasts` for one due broadcast:
skip (with a warning) when the FSM refuses `sending`; otherwise commit
`scheduled → sending` and queue `process_broadcast` (the returned id
list).  When queueing raises, the except branch marks the broadcast
`error` and the loop continues with the next broadcast. -/
def processDue (broadcast : Broadcast) (now : Nat) (enqueueFails : Bool) :
    Broadcast × List Nat :=
  if ¬ can_transition_to broadcast.status BroadcastStatus.sending then
    (broadcast, [])
  else
    let claimed := (transition_to broadcast BroadcastStatus.sending now).2
    if enqueueFails then
      ((transition_to claimed BroadcastStatus.error now).2, [])
    else
      (claimed, [broadcast.id])

/-- One tick of `check_scheduled_broadcasts`
(tasks/scheduled_broadcast_tasks.py): select the due broadcasts and
process each in turn; the try/except around the body isolates one
broadcast's enqueue failure from the rest.  Returns the processed rows and
the ids handed to `process_broadcast.delay`. -/
def check_scheduled_broadcasts (broadcasts : List Broadcast) (now : Nat)
    (enqueueFails : Nat → Bool) : List Broadcast × List Nat :=
  let due := dueBroadcasts broadcasts now
  let results := due.map (fun b => processDue b now (enqueueFails b.id))
  (results.map Prod.fst, (results.map Prod.snd).flatten)

/-- Test fixture: an active production user with a "vip" tag. -/
def u_vip : User :=
  { id := 1, telegram_id := 100, status := UserStatus.active,
    is_subscribed := true, tags := ["vip"], source := Option.none,
    source_normalized := Option.none, gender := UserGender.unknown,
    birthday_month := Option.none, created_at := 0, is_test := false }

/-- Test fixture: an active production user without tags. -/
def u_plain : User :=
  { id := 2, telegram_id := 200, status := UserStatus.active,
    is_subscribed := false, tags := [], source := Option.none,
    source_normalized := Option.none, gender := UserGender.unknown,
    birthday_month := Option.none, created_at := 0, is_test := false }

/-- Test fixture: database with the two active users and no segments. -/
def db_two_users : DB := { users := [u_vip, u_plain], segments := [] }

/-- Test fixture: a draft broadcast with no targeting. -/
def draftBroadcast : Broadcast :=
  { id := 1, title := "t", content := "c",
    media_type := BroadcastMediaType.none, media_file_id := Option.none,
    buttons := Option.none, filters := Option.none,
    segment_id := Option.none, status := BroadcastStatus.draft,
    send_at := Option.none, sent_at := Option.none, recipient_count := 0,
    success_count := 0, error_count := 0, created_by_admin_id := 1,
    is_test := false }

/-- Test fixture: a photo broadcast in `sending` targeting one user. -/
def photoBroadcastSending : Broadcast :=
  { draftBroadcast with
    id := 2
    media_type := BroadcastMediaType.photo
    media_file_id := some "file1"
    status := BroadcastStatus.sending }

/-- Test fixture: a broadcast whose `segment_id` points at a segment that
is not in the database. -/
def danglingSegmentBroadcast : Broadcast :=
  { draftBroadcast with
    id := 3
    segment_id := some 5
    status := BroadcastStatus.sending }

/-- Test fixture: a filter definition whose only content is a key
`evaluate_segment` does not know. -/
def unknownKeyDef : SegmentDef := { unknown_keys := ["loyalty_score"] }

/-- Test fixture: creation payload carrying the unknown-key filter. -/
def unknownKeyCreate : BroadcastCreate :=
  { title := "promo", content := "hello", filters := some unknownKeyDef,
    created_by_admin_id := 1 }

/-- Test fixture: a filter selecting the "vip" tag. -/
def vipFilter : SegmentDef := { tags := some ["vip"] }

/-- Test fixture: creation payload of a photo broadcast targeting the
"vip" tag. -/
def vipCreate : BroadcastCreate :=
  { title := "sale", content := "hi",
    media_type := BroadcastMediaType.photo,
    media_file_id := some "file2", filters := some vipFilter,
    created_by_admin_id := 1 }

/-- Test fixture: the vip broadcast as created through the endpoint and
driven draft → scheduled → sending through the FSM. -/
def vipBroadcastSending : Broadcast :=
  (transition_to
    (transition_to (create_broadcast_endpoint db_two_users vipCreate 10 1)
      BroadcastStatus.scheduled 1).2
    BroadcastStatus.sending 2).2

/-- Test fixture: a scheduled broadcast due at time 3. -/
def scheduledBroadcast : Broadcast :=
  { draftBroadcast with
    id := 4
    status := BroadcastStatus.scheduled
    send_at := some 3 }

/-- Test fixture: a database with no rows. -/
def emptyDB : DB := { users := [], segments := [] }

/-- Test fixture: the vip broadcast after dispatch and after its single
chunk ran to completion (its one recipient is recorded as an error: the
photo branch raises the AttributeError before any send). -/
def vipFinalBroadcast : Broadcast :=
  send_broadcast_chunk_task db_two_users
    (process_broadcast db_two_users vipBroadcastSending 3).1 [1]

end Dvorik

namespace Dvorik

/-- C1: `transition_to` accepts exactly the six transitions of the table
draft→scheduled, scheduled→sending, sending→sent, sending→error,
sent→scheduled, error→scheduled, and a rejected request returns `false`
and leaves the whole broadcast record (status and every other field)
unchanged. -/
theorem transition_to_exactly_spec_table (b : Broadcast)
    (new : BroadcastStatus) (now : Nat) :
    ((transition_to b new now).1 = true ↔ specTransitionTable b.status new) ∧
    ((transition_to b new now).1 = false → (transition_to b new now).2 = b) := by
  constructor
  · unfold transition_to
    rcases b with ⟨_, _, _, _, _, _, _, _, st, _, _, _, _, _, _, _⟩
    cases st <;> cases new <;> simp [can_transition_to, specTransitionTable]
  · intro h
    unfold transition_to at h ⊢
    rcases hc : can_transition_to b.status new with _ | _
    · simp [hc]
    · simp [hc] at h

/-- Witness for C1: the concrete rejected request draft→sent returns
`false` and leaves the record unchanged. -/
theorem transition_to_exactly_spec_table_witness :
    (transition_to draftBroadcast BroadcastStatus.sent 5).2 = draftBroadcast :=
  (transition_to_exactly_spec_table _ BroadcastStatus.sent 5).2 (by decide)

/-- Arithmetic helper: `ceil(n / c) * c` covers `n`. -/
theorem ceil_mul_ge (n c : Nat) (hc : 0 < c) : n ≤ ((n + c - 1) / c) * c := by
  have h1 := Nat.div_add_mod (n + c - 1) c
  have h2 := Nat.mod_lt (n + c - 1) hc
  have h3 : ((n + c - 1) / c) * c = c * ((n + c - 1) / c) := Nat.mul_comm _ _
  omega

/-- Concatenating the slices `l[s:s+c], l[s+c:s+2c], …` (k of them)
recovers `l[s:s+k*c]`. -/
theorem join_slices (c : Nat) (l : List Nat) :
    ∀ (k s : Nat),
      ((List.range' s k c).map (fun i => (l.drop i).take c)).flatten =
        (l.drop s).take (k * c) := by
  intro k
  induction k with
  | zero => intro s; simp
  | succ k ih =>
    intro s
    rw [List.range'_succ, List.map_cons, List.flatten_cons, ih (s + c)]
    have hdd : l.drop (s + c) = (l.drop s).drop c := (List.drop_drop c s l).symm
    rw [hdd, ← List.take_add]
    congr 1
    ring

/-- The chunks concatenate back to the original list. -/
theorem chunksOf_flatten (c : Nat) (l : List Nat) (hc : 0 < c) :
    (chunksOf c l).flatten = l := by
  unfold chunksOf
  rw [join_slices c l ((l.length + c - 1) / c) 0, List.drop_zero,
    List.take_of_length_le (ceil_mul_ge l.length c hc)]

/-- There are exactly `ceil(length / c)` chunks. -/
theorem chunksOf_length (c : Nat) (l : List Nat) :
    (chunksOf c l).length = (l.length + c - 1) / c := by
  simp [chunksOf]

/-- The `i`-th chunk is the slice `l[c*i : c*i+c]`. -/
theorem chunksOf_getD (c : Nat) (l : List Nat) (i : Nat)
    (h : i < (chunksOf c l).length) :
    (chunksOf c l).getD i [] = (l.drop (c * i)).take c := by
  rw [List.getD_eq_getElem _ _ h]
  unfold chunksOf at h ⊢
  simp only [List.getElem_map, List.getElem_range']
  simp

/-- Size of the `i`-th chunk. -/
theorem chunksOf_getD_length (c : Nat) (l : List Nat) (i : Nat)
    (h : i < (chunksOf c l).length) :
    ((chunksOf c l).getD i []).length = min c (l.length - c * i) := by
  rw [chunksOf_getD c l i h]
  simp

/-- Every chunk except possibly the last has size exactly `c`. -/
theorem chunksOf_full (c : Nat) (l : List Nat) (i : Nat) (hc : 0 < c)
    (h : i + 1 < (chunksOf c l).length) :
    ((chunksOf c l).getD i []).length = c := by
  rw [chunksOf_getD_length c l i (by omega)]
  rw [chunksOf_length] at h
  have h1 := Nat.div_add_mod (l.length + c - 1) c
  have h2 := Nat.mod_lt (l.length + c - 1) hc
  have h3 : c * (i + 2) ≤ c * ((l.length + c - 1) / c) :=
    Nat.mul_le_mul_left c (by omega)
  have h4 : c * (i + 2) = c * i + c + c := by ring
  omega

/-- The last chunk has size `length mod c`, or `c` when `c` divides the
length. -/
theorem chunksOf_last (c : Nat) (l : List Nat) (hc : 0 < c) (hl : l ≠ []) :
    ((chunksOf c l).getD ((chunksOf c l).length - 1) []).length =
      if l.length % c = 0 then c else l.length % c := by
  have hn : 0 < l.length := List.length_pos.mpr hl
  have h1 := Nat.div_add_mod (l.length + c - 1) c
  have h2 := Nat.mod_lt (l.length + c - 1) hc
  have h3 := Nat.div_add_mod l.length c
  have h4 := Nat.mod_lt l.length hc
  have hk : 0 < (chunksOf c l).length := by
    rw [chunksOf_length]
    exact Nat.div_pos (by omega) hc
  rw [chunksOf_getD_length c l _ (by omega), chunksOf_length]
  rcases Nat.eq_zero_or_pos (l.length % c) with hz | hp
  · rw [if_pos hz]
    have hq : (l.length + c - 1) / c = l.length / c := by
      have e1 : l.length + c - 1 = c * (l.length / c) + (c - 1) := by omega
      rw [e1, Nat.mul_add_div hc,
        Nat.div_eq_of_lt (show c - 1 < c by omega)]
      omega
    rw [hq]
    obtain ⟨q, hqq⟩ : ∃ q, l.length / c = q + 1 := by
      rcases Nat.lt_or_ge l.length c with hlt | hge
      · rw [Nat.mod_eq_of_lt hlt] at hz
        omega
      · have := Nat.div_pos hge hc
        exact ⟨l.length / c - 1, by omega⟩
    rw [hqq] at h3 ⊢
    simp only [Nat.add_sub_cancel]
    have e2 : c * (q + 1) = c * q + c := by ring
    omega
  · rw [if_neg (by omega)]
    have hq : (l.length + c - 1) / c = l.length / c + 1 := by
      have e2 : c * (l.length / c + 1) = c * (l.length / c) + c := by ring
      have e1 : l.length + c - 1 = c * (l.length / c + 1) + (l.length % c - 1) := by
        omega
      rw [e1, Nat.mul_add_div hc,
        Nat.div_eq_of_lt (show l.length % c - 1 < c by omega)]
    rw [hq]
    simp only [Nat.add_sub_cancel]
    omega

/-- The concrete scenario of the spec: 2500 recipients at chunk size 1000
give chunk sizes 1000, 1000, 500. -/
theorem chunksOf_2500 :
    (chunksOf 1000 (List.replicate 2500 0)).map List.length = [1000, 1000, 500] := by
  have hlen : (chunksOf 1000 (List.replicate 2500 0)).length = 3 := by
    rw [chunksOf_length]
    simp only [List.length_replicate]
  have h0 : ((chunksOf 1000 (List.replicate 2500 0)).getD 0 []).length = 1000 :=
    chunksOf_full 1000 _ 0 (by norm_num) (by omega)
  have h1 : ((chunksOf 1000 (List.replicate 2500 0)).getD 1 []).length = 1000 :=
    chunksOf_full 1000 _ 1 (by norm_num) (by omega)
  have h2 : ((chunksOf 1000 (List.replicate 2500 0)).getD 2 []).length = 500 := by
    have hlast := chunksOf_last 1000 (List.replicate 2500 0) (by norm_num)
      (List.length_pos.mp (by simp only [List.length_replicate]; norm_num))
    rw [hlen] at hlast
    simp only [List.length_replicate] at hlast
    rw [show (3 : Nat) - 1 = 2 from rfl] at hlast
    rw [if_neg (show ¬(2500 % 1000 = 0) by norm_num)] at hlast
    rw [show (2500 : Nat) % 1000 = 500 from by norm_num] at hlast
    exact hlast
  apply List.ext_getElem
  · rw [List.length_map, hlen]
    rfl
  · intro i hi1 hi2
    rw [List.getElem_map]
    rw [List.length_map, hlen] at hi1
    interval_cases i
    · rw [List.getD_eq_getElem _ _ (by omega)] at h0
      exact h0.trans rfl
    · rw [List.getD_eq_getElem _ _ (by omega)] at h1
      exact h1.trans rfl
    · rw [List.getD_eq_getElem _ _ (by omega)] at h2
      exact h2.trans rfl

/-- C7: for a recipient list of length N and chunk size C > 0 the chunking
comprehension of `process_broadcast` yields exactly ceil(N/C) chunks whose
concatenation is the original list, every chunk except the last of size C,
the last of size N mod C (C when C divides N); in particular 2500
recipients at the default chunk size 1000 give chunks 1000, 1000, 500. -/
theorem chunk_dispatcher_spec (c : Nat) (l : List Nat) (hc : 0 < c) :
    (chunksOf c l).flatten = l ∧
    (chunksOf c l).length = (l.length + c - 1) / c ∧
    (∀ i, i + 1 < (chunksOf c l).length →
      ((chunksOf c l).getD i []).length = c) ∧
    (l ≠ [] → ((chunksOf c l).getD ((chunksOf c l).length - 1) []).length =
      if l.length % c = 0 then c else l.length % c) ∧
    (chunksOf 1000 (List.replicate 2500 0)).map List.length = [1000, 1000, 500] :=
  ⟨chunksOf_flatten c l hc, chunksOf_length c l,
    fun i hi => chunksOf_full c l i hc hi,
    fun hl => chunksOf_last c l hc hl,
    chunksOf_2500⟩

/-- Witness for C7 at chunk size 2 on a concrete 5-element list. -/
theorem chunk_dispatcher_spec_witness :
    (chunksOf 2 [10, 20, 30, 40, 50]).flatten = [10, 20, 30, 40, 50] ∧
    (chunksOf 2 [10, 20, 30, 40, 50]).length = 3 :=
  ⟨(chunk_dispatcher_spec 2 [10, 20, 30, 40, 50] (by decide)).1,
    ((chunk_dispatcher_spec 2 [10, 20, 30, 40, 50] (by decide)).2).1⟩

/-- C5 counterexample: a broadcast whose `segment_id` points to a deleted
segment resolves to the full active audience, not to the empty list. -/
theorem dangling_segment_counterexample :
    get_recipients db_two_users danglingSegmentBroadcast false =
      [u_vip, u_plain] ∧
    [u_vip, u_plain] ≠ ([] : List User) := by
  decide

/-- C5 amended: when `segment_id` is truthy but its segment is missing,
`get_recipients` returns the unfiltered base query — every active user
with a matching test flag. -/
theorem dangling_segment_resolves_to_base (db : DB) (b : Broadcast)
    (t : Bool) (hsid : optTruthy b.segment_id = true)
    (hmiss : db.segments.find? (fun s => s.id == b.segment_id.getD 0) =
      Option.none) :
    get_recipients db b t =
      db.users.filter
        (fun u => u.status == UserStatus.active && u.is_test == t) := by
  simp [get_recipients, hsid, hmiss]

/-- Witness for the amended C5 on the concrete dangling broadcast. -/
theorem dangling_segment_resolves_to_base_witness :
    get_recipients db_two_users danglingSegmentBroadcast false =
      db_two_users.users.filter
        (fun u => u.status == UserStatus.active && u.is_test == false) :=
  dangling_segment_resolves_to_base db_two_users danglingSegmentBroadcast
    false (by decide) (by decide)

/-- C6 counterexample: a creation payload whose filter carries only an
unknown key passes schema validation, the created broadcast is a draft
that transitions to `scheduled`, and at resolution the unknown key is
silently ignored (no user is filtered out and nothing is raised). -/
theorem unknown_filter_key_counterexample :
    broadcastCreateValid unknownKeyCreate = true ∧
    (create_broadcast_endpoint db_two_users unknownKeyCreate 7 1).status =
      BroadcastStatus.draft ∧
    (transition_to (create_broadcast_endpoint db_two_users unknownKeyCreate 7 1)
      BroadcastStatus.scheduled 0).1 = true ∧
    evaluate_segment [u_vip, u_plain] unknownKeyDef = [u_vip, u_plain] := by
  decide

/-- C6 amended: unknown predicate keys are accepted at creation without
any error (the broadcast is created in `draft` and may be scheduled), and
at resolution time `evaluate_segment` ignores them entirely: the result
equals the evaluation of the same definition with the unknown keys
removed. -/
theorem unknown_filter_keys_ignored (users : List User) (d : SegmentDef)
    (db : DB) (data : BroadcastCreate) (new_id admin_id : Nat) :
    evaluate_segment users d =
      evaluate_segment users { d with unknown_keys := [] } ∧
    (create_broadcast_endpoint db data new_id admin_id).status =
      BroadcastStatus.draft ∧
    (transition_to (create_broadcast_endpoint db data new_id admin_id)
      BroadcastStatus.scheduled 0).1 = true :=
  ⟨rfl, rfl, rfl⟩

/-- C3: evaluation of the send-method selection.  For media kinds "none"
(plain text) and "document" no send operation is selected — zero outbound
attempts instead of the one the spec requires — while `send_message` is
unreachable for every media kind (the code compares with "text", which is
not an enum value); a plain-text chunk still counts one success per
recipient without sending anything. -/
theorem media_kind_dispatch_eval :
    selectSendOps BroadcastMediaType.none = [] ∧
    selectSendOps BroadcastMediaType.document = [] ∧
    selectSendOps BroadcastMediaType.photo = [SendOp.sendPhoto] ∧
    selectSendOps BroadcastMediaType.video = [SendOp.sendVideo] ∧
    (∀ media_type, SendOp.sendMessage ∉ selectSendOps media_type) ∧
    runChunkLoop BroadcastMediaType.none [u_vip] 0 0 = some (1, 0) := by
  refine ⟨by decide, by decide, by decide, by decide, ?_, by decide⟩
  intro media_type
  cases media_type <;> decide

/-- Helper: the exception text of the selected branches carries none of
the substrings the except handler looks for, so it is classified as a
generic per-recipient error. -/
theorem missingMessageAttr_is_generic :
    strIn "403" missingMessageAttrText = false ∧
    strIn "blocked" (strLower missingMessageAttrText) = false ∧
    strIn "429" missingMessageAttrText = false := by
  decide

/-- Helper: the chunk loop never re-raises — every iteration either
completes the try block (no branch selected) or lands in a
continue-branch of the handler (the AttributeError is a generic error) —
so the task body never aborts and Celery's automatic retry never fires. -/
theorem runChunkLoop_ne_none (media_type : BroadcastMediaType) :
    ∀ (users : List User) (s e : Nat),
      runChunkLoop media_type users s e ≠ Option.none := by
  intro users
  induction users with
  | nil =>
    intro s e h
    simp [runChunkLoop] at h
  | cons u rest ih =>
    intro s e
    unfold runChunkLoop
    cases hsel : (selectSendOps media_type).isEmpty with
    | true =>
      simp only [tryBlockException, hsel, if_true]
      exact ih (s + 1) e
    | false =>
      have h1 := missingMessageAttr_is_generic
      simp only [tryBlockException, hsel, Bool.false_eq_true, if_false,
        h1.1, h1.2.1, h1.2.2, Bool.or_false, Bool.false_or]
      exact ih s (e + 1)

/-- C4: evaluation at the failing input, and the general unreachability of
the retry trigger.  The retry machinery is configured (max_retries 3,
exponential backoff capped at 600s) and the handler re-raises on "429",
but a photo chunk never reaches the provider: the selected branch raises
AttributeError on `broadcast.message`, classified as a generic
per-recipient error, so the first execution completes with the recipient
counted in `error_count` and no retry happens; the chunk loop can never
return the re-raise outcome for any media kind, so chunk processing can
never hit a provider rate limit and the exhaustion accounting the claim
describes can never run. -/
theorem rate_limit_retry_dead_code_eval :
    max_retries = 3 ∧ retry_backoff = true ∧ retry_backoff_max = 600 ∧
    selectSendOps BroadcastMediaType.photo = [SendOp.sendPhoto] ∧
    tryBlockException BroadcastMediaType.photo =
      some missingMessageAttrText ∧
    strIn "429" missingMessageAttrText = false ∧
    (∀ (media_type : BroadcastMediaType) (users : List User) (s e : Nat),
      runChunkLoop media_type users s e ≠ Option.none) ∧
    runChunkLoop BroadcastMediaType.photo [u_vip] 0 0 = some (0, 1) ∧
    send_broadcast_chunk_task db_two_users photoBroadcastSending [1] =
      update_broadcast_stats photoBroadcastSending 0 1 ∧
    (send_broadcast_chunk_task db_two_users photoBroadcastSending
      [1]).error_count = 1 := by
  refine ⟨rfl, rfl, rfl, by decide, by decide, by decide,
    runChunkLoop_ne_none, by decide, by decide, by decide⟩

/-- C10: a `sending` broadcast that resolves to no recipients is
transitioned straight to `sent` with `sent_at` stamped, zero chunks are
enqueued, and the three counters are left unchanged. -/
theorem process_broadcast_empty_audience (db : DB) (b : Broadcast)
    (now : Nat) (hst : b.status = BroadcastStatus.sending)
    (hrec : get_recipients db b b.is_test = []) :
    process_broadcast db b now =
      ({ b with status := BroadcastStatus.sent, sent_at := some now }, []) ∧
    (process_broadcast db b now).1.recipient_count = b.recipient_count ∧
    (process_broadcast db b now).1.success_count = b.success_count ∧
    (process_broadcast db b now).1.error_count = b.error_count := by
  have hmain : process_broadcast db b now =
      ({ b with status := BroadcastStatus.sent, sent_at := some now }, []) := by
    simp [process_broadcast, hst, hrec, transition_to, can_transition_to]
  refine ⟨hmain, ?_, ?_, ?_⟩ <;> rw [hmain]

/-- Witness for C10 on a concrete empty database. -/
theorem process_broadcast_empty_audience_witness :
    process_broadcast emptyDB photoBroadcastSending 9 =
      ({ photoBroadcastSending with
          status := BroadcastStatus.sent
          sent_at := some 9 }, []) :=
  (process_broadcast_empty_audience emptyDB photoBroadcastSending 9
    (by decide) (by decide)).1

/-- Helper: the ids one due broadcast hands to dispatch. -/
theorem processDue_snd (b : Broadcast) (now : Nat) (e : Bool) :
    (processDue b now e).2 =
      if can_transition_to b.status BroadcastStatus.sending && !e
      then [b.id] else [] := by
  unfold processDue
  cases hc : can_transition_to b.status BroadcastStatus.sending
  · simp [hc]
  · cases e <;> simp [hc]

/-- Helper: the dispatched ids of a tick are computed independently per
due broadcast. -/
theorem tick_dispatch_eq (now : Nat) (fail : Nat → Bool) :
    ∀ l : List Broadcast,
      ((l.map (fun b => processDue b now (fail b.id))).map Prod.snd).flatten =
        l.filterMap (fun b =>
          if can_transition_to b.status BroadcastStatus.sending && !(fail b.id)
          then some b.id else Option.none) := by
  intro l
  induction l with
  | nil => rfl
  | cons b rest ih =>
    simp only [List.map_cons, List.flatten_cons, List.filterMap_cons, ih,
      processDue_snd]
    cases hc : (can_transition_to b.status BroadcastStatus.sending &&
        !(fail b.id)) <;>
      simp [hc]

/-- C8: a scheduler tick selects exactly the broadcasts with status
`scheduled` and a due `send_at` (NULL is never due); each selected
broadcast with an admissible transition is moved to `sending` and its id
handed to dispatch; a broadcast the FSM refuses is skipped unchanged; and
the set of dispatched ids is a per-broadcast filter of the due list, so
one broadcast's enqueue failure cannot affect any other due broadcast of
the same tick. -/
theorem scheduler_tick_spec (broadcasts : List Broadcast) (now : Nat)
    (fail : Nat → Bool) :
    (∀ b : Broadcast, b ∈ dueBroadcasts broadcasts now ↔
      b ∈ broadcasts ∧ b.status = BroadcastStatus.scheduled ∧
        optLE b.send_at now = true) ∧
    (∀ b : Broadcast, b.status = BroadcastStatus.scheduled →
      processDue b now false =
        ({ b with status := BroadcastStatus.sending }, [b.id])) ∧
    (∀ (b : Broadcast) (e : Bool),
      can_transition_to b.status BroadcastStatus.sending = false →
      processDue b now e = (b, [])) ∧
    (check_scheduled_broadcasts broadcasts now fail).2 =
      (dueBroadcasts broadcasts now).filterMap (fun b =>
        if can_transition_to b.status BroadcastStatus.sending && !(fail b.id)
        then some b.id else Option.none) := by
  refine ⟨?_, ?_, ?_, ?_⟩
  · intro b
    simp [dueBroadcasts, List.mem_filter]
  · intro b hb
    rcases b with ⟨bid, bt, bc, bmt, bmf, bbu, bfi, bsi, bst, bsa, bse,
      brc, bsc, bec, bca, bit⟩
    have hst : bst = BroadcastStatus.scheduled := hb
    subst hst
    simp [processDue, transition_to, can_transition_to]
  · intro b e h
    simp [processDue, h]
  · exact tick_dispatch_eq now fail (dueBroadcasts broadcasts now)

/-- Witness for C8: a concrete due broadcast is claimed for `sending` and
dispatched exactly once. -/
theorem scheduler_tick_spec_witness :
    processDue scheduledBroadcast 7 false =
      ({ scheduledBroadcast with status := BroadcastStatus.sending },
        [scheduledBroadcast.id]) :=
  (scheduler_tick_spec [scheduledBroadcast] 7 (fun _ => false)).2.1
    scheduledBroadcast (by decide)

/-- C2: evaluation at a failing input.  The endpoint stores
`recipient_count = 2` (the count query ignores the vip filter and counts
every active user), the pipeline resolves the single vip recipient, whose
photo send attempt is recorded as an error (the AttributeError on
`broadcast.message`), and after the only chunk has run to completion,
`success_count + error_count = 1 ≠ 2 = recipient_count`. -/
theorem stats_vs_recipient_count_eval :
    vipBroadcastSending.status = BroadcastStatus.sending ∧
    vipBroadcastSending.recipient_count = 2 ∧
    (process_broadcast db_two_users vipBroadcastSending 3).2 = [[1]] ∧
    vipFinalBroadcast.success_count + vipFinalBroadcast.error_count = 1 ∧
    vipFinalBroadcast.recipient_count = 2 ∧
    (1 : Nat) ≠ 2 := by
  decide

end Dvorik
